import Mathlib

/-!
Shallow embedding of the authorization core of the `koppling` multi-tenant
SaaS repository: the role/permission registry and tenant isolation guard
(`src/lib/rbac.ts`), the credential verifier (`authorize` in
`src/lib/auth.ts`), the session expiry configuration, and the route
enforcement middleware (`middleware.ts`, wrapped in next-auth `withAuth`).
TypeScript strings stay `String`, nullable values become `Option`,
thrown `Error(msg)` becomes `Except String`, and JS truthiness on strings
("" and null are falsy) is made explicit.
-/

/-- The Prisma `UserRole` enum: the four fixed roles. -/
inductive UserRole where
  | platform_admin
  | tenant_owner
  | tenant_admin
  | tenant_viewer
deriving DecidableEq

/-- The `Permission` enum of `src/lib/rbac.ts` (19 capability tags). -/
inductive Permission where
  | MANAGE_PLATFORM
  | MANAGE_ALL_TENANTS
  | IMPERSONATE_USERS
  | MANAGE_PLATFORM_SETTINGS
  | MANAGE_BLOG
  | MANAGE_CHANGELOG
  | MANAGE_TENANT
  | MANAGE_TENANT_USERS
  | MANAGE_INTEGRATIONS
  | MANAGE_SYNC_SETTINGS
  | MANAGE_BILLING
  | VIEW_ORDERS
  | VIEW_PRODUCTS
  | MANAGE_ORDERS
  | MANAGE_PRODUCTS
  | TRIGGER_SYNC
  | VIEW_SYNC_HISTORY
  | ROLLBACK_SYNC
  | VIEW_AUDIT_LOG
deriving DecidableEq

open Permission in
/-- The constant `ROLE_PERMISSIONS` record of `src/lib/rbac.ts`, entry for
entry in source order. -/
def ROLE_PERMISSIONS : UserRole → List Permission
  | .platform_admin =>
      [MANAGE_PLATFORM, MANAGE_ALL_TENANTS, IMPERSONATE_USERS,
       MANAGE_PLATFORM_SETTINGS, MANAGE_BLOG, MANAGE_CHANGELOG,
       MANAGE_TENANT, MANAGE_TENANT_USERS, MANAGE_INTEGRATIONS,
       MANAGE_SYNC_SETTINGS, MANAGE_BILLING, VIEW_ORDERS, VIEW_PRODUCTS,
       MANAGE_ORDERS, MANAGE_PRODUCTS, TRIGGER_SYNC, VIEW_SYNC_HISTORY,
       ROLLBACK_SYNC, VIEW_AUDIT_LOG]
  | .tenant_owner =>
      [MANAGE_TENANT, MANAGE_TENANT_USERS, MANAGE_INTEGRATIONS,
       MANAGE_SYNC_SETTINGS, MANAGE_BILLING, VIEW_ORDERS, VIEW_PRODUCTS,
       MANAGE_ORDERS, MANAGE_PRODUCTS, TRIGGER_SYNC, VIEW_SYNC_HISTORY,
       ROLLBACK_SYNC, VIEW_AUDIT_LOG]
  | .tenant_admin =>
      [MANAGE_INTEGRATIONS, MANAGE_SYNC_SETTINGS, VIEW_ORDERS,
       VIEW_PRODUCTS, MANAGE_ORDERS, MANAGE_PRODUCTS, TRIGGER_SYNC,
       VIEW_SYNC_HISTORY, ROLLBACK_SYNC, VIEW_AUDIT_LOG]
  | .tenant_viewer =>
      [VIEW_ORDERS, VIEW_PRODUCTS, VIEW_SYNC_HISTORY, VIEW_AUDIT_LOG]

/-- Source `hasPermission(role, permission)`: `ROLE_PERMISSIONS[role].includes(permission)`. -/
def hasPermission (role : UserRole) (permission : Permission) : Bool :=
  (ROLE_PERMISSIONS role).contains permission

/-- Source `hasAnyPermission(role, permissions)`: `permissions.some(p => hasPermission(role, p))`. -/
def hasAnyPermission (role : UserRole) (permissions : List Permission) : Bool :=
  permissions.any fun permission => hasPermission role permission

/-- Source `hasAllPermissions(role, permissions)`: `permissions.every(p => hasPermission(role, p))`. -/
def hasAllPermissions (role : UserRole) (permissions : List Permission) : Bool :=
  permissions.all fun permission => hasPermission role permission

/-- Source `getPermissions(role)`: returns `ROLE_PERMISSIONS[role]`. -/
def getPermissions (role : UserRole) : List Permission :=
  ROLE_PERMISSIONS role

/-- Source `isPlatformAdmin(role)`: `role === 'platform_admin'`. -/
def isPlatformAdmin (role : UserRole) : Bool :=
  role == .platform_admin

/-- Source `canAccessTenant(userRole, userTenantId, targetTenantId)`: platform admins
always pass, other roles pass iff `userTenantId === targetTenantId` (the
target id is a non-null `string` in the TypeScript signature, so a null
caller tenant never equals it). -/
def canAccessTenant (userRole : UserRole) (userTenantId : Option String)
    (targetTenantId : String) : Bool :=
  if isPlatformAdmin userRole then
    true
  else
    userTenantId == some targetTenantId

/-- C1: the tenant isolation guard: `platform_admin` passes for every caller
tenant (null included) and target; every other role passes iff the caller
tenant equals the target, and in particular fails on a null caller tenant. -/
theorem canAccessTenant_guard :
    (∀ (ut : Option String) (t : String),
        canAccessTenant .platform_admin ut t = true) ∧
    (∀ (r : UserRole) (ut : Option String) (t : String),
        r ≠ .platform_admin →
        (canAccessTenant r ut t = true ↔ ut = some t)) ∧
    (∀ (r : UserRole) (t : String),
        r ≠ .platform_admin → canAccessTenant r none t = false) := by
  refine ⟨fun ut t => rfl, fun r ut t hr => ?_, fun r t hr => ?_⟩
  · have hpa : isPlatformAdmin r = false := by
      cases r <;> simp_all [isPlatformAdmin]
    simp [canAccessTenant, hpa]
  · have hpa : isPlatformAdmin r = false := by
      cases r <;> simp_all [isPlatformAdmin]
    simp [canAccessTenant, hpa]

/-- Witness for C1 at a concrete input: a `tenant_viewer` with no tenant is
denied access to tenant `"T1"`. -/
theorem canAccessTenant_guard_witness :
    canAccessTenant .tenant_viewer none "T1" = false :=
  canAccessTenant_guard.2.2 .tenant_viewer "T1" (by decide)

/-- C4: permission-set nesting: viewer ⊆ admin ⊆ platform, admin ⊆ owner ⊆
platform, and the owner holds `MANAGE_TENANT_USERS` and `MANAGE_BILLING`
which the admin lacks. -/
theorem rolePermissions_nesting :
    (∀ p ∈ getPermissions .tenant_viewer, p ∈ getPermissions .tenant_admin) ∧
    (∀ p ∈ getPermissions .tenant_admin, p ∈ getPermissions .platform_admin) ∧
    (∀ p ∈ getPermissions .tenant_admin, p ∈ getPermissions .tenant_owner) ∧
    (∀ p ∈ getPermissions .tenant_owner, p ∈ getPermissions .platform_admin) ∧
    (Permission.MANAGE_TENANT_USERS ∈ getPermissions .tenant_owner ∧
      Permission.MANAGE_TENANT_USERS ∉ getPermissions .tenant_admin) ∧
    (Permission.MANAGE_BILLING ∈ getPermissions .tenant_owner ∧
      Permission.MANAGE_BILLING ∉ getPermissions .tenant_admin) := by
  decide

/-- Witness for C4 at a concrete input: `VIEW_ORDERS`, held by the viewer,
is also held by the tenant admin. -/
theorem rolePermissions_nesting_witness :
    Permission.VIEW_ORDERS ∈ getPermissions .tenant_admin :=
  rolePermissions_nesting.1 Permission.VIEW_ORDERS (by decide)

/-- C10: `hasAnyPermission` is existential membership and `hasAllPermissions`
is universal membership in the role's permission list; on the empty list the
former is false and the latter vacuously true. -/
theorem hasAny_hasAll_characterization :
    ∀ (r : UserRole) (ps : List Permission),
      (hasAnyPermission r ps = true ↔ ∃ p, p ∈ ps ∧ p ∈ getPermissions r) ∧
      (hasAllPermissions r ps = true ↔ ∀ p, p ∈ ps → p ∈ getPermissions r) ∧
      hasAnyPermission r [] = false ∧
      hasAllPermissions r [] = true := by
  intro r ps
  refine ⟨?_, ?_, rfl, rfl⟩
  · simp [hasAnyPermission, hasPermission, getPermissions, List.any_eq_true]
  · simp [hasAllPermissions, hasPermission, getPermissions, List.all_eq_true]

/-- Witness for C10 at a concrete input: for the viewer role and the empty
permission list, `hasAnyPermission` is false and `hasAllPermissions` true. -/
theorem hasAny_hasAll_characterization_witness :
    hasAnyPermission .tenant_viewer [] = false ∧
    hasAllPermissions .tenant_viewer [] = true :=
  ⟨(hasAny_hasAll_characterization .tenant_viewer []).2.2.1,
   (hasAny_hasAll_characterization .tenant_viewer []).2.2.2⟩

/-- A `Tenant` row: `id` and `status` (`'active' | 'suspended'`). -/
structure Tenant where
  id : String
  status : String
deriving DecidableEq

/-- A `User` row as read by `authorize` (`findUnique` with
`include: { tenant: true }`): nullable `passwordHash` and `tenantId`. -/
structure User where
  id : String
  email : String
  name : Option String
  passwordHash : Option String
  role : UserRole
  status : String
  tenantId : Option String
deriving DecidableEq

/-- The account store reachable through the Prisma client: the `user` and
`tenant` tables. -/
structure Db where
  users : List User
  tenants : List Tenant
deriving DecidableEq

/-- Source `prisma.user.findUnique` by email: the (unique) user row
with the given email. -/
def findUserByEmail (db : Db) (email : String) : Option User :=
  db.users.find? fun u => u.email == email

/-- The `tenant` relation included by `authorize`: the tenant row the user's
`tenantId` foreign key points at, null when `tenantId` is null. -/
def userTenant (db : Db) (u : User) : Option Tenant :=
  u.tenantId.bind fun tid => db.tenants.find? fun t => t.id == tid

/-- The identity object `authorize` returns on success:
`{id, email, name, role, tenantId}`. -/
structure Identity where
  id : String
  email : String
  name : Option String
  role : UserRole
  tenantId : Option String
deriving DecidableEq

/-- The `authorize(credentials)` callback of the credentials provider in
`src/lib/auth.ts`. `verify` is the black-box hashing primitive
(`bcrypt.compare`); a thrown `Error(msg)` becomes `.error msg`; a missing
`credentials.email`/`password` field collapses to `""` (JS falsiness). -/
def authorize (verify : String → String → Bool) (db : Db)
    (email password : String) : Except String Identity :=
  if email == "" || password == "" then
    .error "Missing credentials"
  else
    match findUserByEmail db email with
    | none => .error "Invalid credentials"
    | some user =>
      match user.passwordHash with
      | none => .error "Invalid credentials"
      | some digest =>
        if digest == "" then
          .error "Invalid credentials"
        else if !(verify password digest) then
          .error "Invalid credentials"
        else if !(user.status == "active") then
          .error "Account is not active"
        else if !(user.role == .platform_admin)
            && !((userTenant db user).map Tenant.status == some "active") then
          .error "Account is not active"
        else
          .ok ⟨user.id, user.email, user.name, user.role, user.tenantId⟩

/-- C5: `authorize` checks its failure conditions in the fixed order
(a) account exists, (b) password digest set (non-null, non-empty),
(c) password verifies, (d) account status active, (e) for non-platform_admin
roles the tenant status active; (a)-(c) yield `Invalid credentials`
(`InvalidCredentials`), (d)-(e) yield `Account is not active`
(`AccountInactive`), and success returns `{id, email, name, role, tenantId}`. -/
theorem authorize_order (verify : String → String → Bool) (db : Db)
    (email password : String) (he : email ≠ "") (hp : password ≠ "") :
    (findUserByEmail db email = none →
      authorize verify db email password = .error "Invalid credentials") ∧
    (∀ u, findUserByEmail db email = some u →
      (u.passwordHash = none ∨ u.passwordHash = some "") →
      authorize verify db email password = .error "Invalid credentials") ∧
    (∀ u d, findUserByEmail db email = some u → u.passwordHash = some d →
      d ≠ "" → verify password d = false →
      authorize verify db email password = .error "Invalid credentials") ∧
    (∀ u d, findUserByEmail db email = some u → u.passwordHash = some d →
      d ≠ "" → verify password d = true → u.status ≠ "active" →
      authorize verify db email password = .error "Account is not active") ∧
    (∀ u d, findUserByEmail db email = some u → u.passwordHash = some d →
      d ≠ "" → verify password d = true → u.status = "active" →
      u.role ≠ .platform_admin →
      (userTenant db u).map Tenant.status ≠ some "active" →
      authorize verify db email password = .error "Account is not active") ∧
    (∀ u d, findUserByEmail db email = some u → u.passwordHash = some d →
      d ≠ "" → verify password d = true → u.status = "active" →
      (u.role = .platform_admin ∨
        (userTenant db u).map Tenant.status = some "active") →
      authorize verify db email password =
        .ok ⟨u.id, u.email, u.name, u.role, u.tenantId⟩) := by
  refine ⟨?_, ?_, ?_, ?_, ?_, ?_⟩
  · intro hfind
    simp [authorize, he, hp, hfind]
  · rintro u hfind (hnone | hempty)
    · simp [authorize, he, hp, hfind, hnone]
    · simp [authorize, he, hp, hfind, hempty]
  · intro u d hfind hd hne hv
    simp [authorize, he, hp, hfind, hd, hne, hv]
  · intro u d hfind hd hne hv hst
    simp [authorize, he, hp, hfind, hd, hne, hv, hst]
  · intro u d hfind hd hne hv hst hrole hten
    simp [authorize, he, hp, hfind, hd, hne, hv, hst, hrole, hten]
  · rintro u d hfind hd hne hv hst (hrole | hten)
    · simp [authorize, he, hp, hfind, hd, hne, hv, hst, hrole]
    · simp [authorize, he, hp, hfind, hd, hne, hv, hst, hten]

/-- A one-user, one-tenant account store used to instantiate the credential
verifier theorems: an active `tenant_owner` in active tenant `"T1"`. -/
def sampleDb : Db :=
  ⟨[⟨"u1", "owner@acme.test", some "Alice",
     some "digest1", .tenant_owner, "active", some "T1"⟩],
   [⟨"T1", "active"⟩]⟩

/-- The concrete stand-in for the black-box hashing primitive used in
witnesses: a password verifies against a digest iff they are equal. -/
def plainVerify (password digest : String) : Bool :=
  password == digest

/-- Witness for C5 at a concrete input: with the sample store and the correct
password, `authorize` succeeds and returns the stored identity. -/
theorem authorize_order_witness :
    authorize plainVerify sampleDb "owner@acme.test" "digest1" =
      .ok ⟨"u1", "owner@acme.test", some "Alice", .tenant_owner, some "T1"⟩ :=
  (authorize_order plainVerify sampleDb "owner@acme.test" "digest1"
      (by decide) (by decide)).2.2.2.2.2
    ⟨"u1", "owner@acme.test", some "Alice",
     some "digest1", .tenant_owner, "active", some "T1"⟩
    "digest1" (by decide) (by decide) (by decide) (by decide) rfl
    (Or.inr (by decide))

/-- C6: an unknown email and a known email with a wrong password produce the
same error result (`Invalid credentials` both ways). -/
theorem authorize_enumeration_resistant (verify : String → String → Bool)
    (db : Db) (e1 p1 e2 p2 : String) (u : User) (d : String)
    (he1 : e1 ≠ "") (hp1 : p1 ≠ "") (he2 : e2 ≠ "") (hp2 : p2 ≠ "")
    (hunknown : findUserByEmail db e1 = none)
    (hknown : findUserByEmail db e2 = some u)
    (hd : u.passwordHash = some d) (hdne : d ≠ "")
    (hwrong : verify p2 d = false) :
    authorize verify db e1 p1 = authorize verify db e2 p2 := by
  have h1 := (authorize_order verify db e1 p1 he1 hp1).1 hunknown
  have h2 := (authorize_order verify db e2 p2 he2 hp2).2.2.1 u d hknown hd
    hdne hwrong
  rw [h1, h2]

/-- Witness for C6 at a concrete input: an unknown email and the stored email
with a wrong password both yield `Invalid credentials`. -/
theorem authorize_enumeration_resistant_witness :
    authorize plainVerify sampleDb "nobody@acme.test" "whatever" =
      authorize plainVerify sampleDb "owner@acme.test" "wrongpw" :=
  authorize_enumeration_resistant plainVerify sampleDb
    "nobody@acme.test" "whatever" "owner@acme.test" "wrongpw"
    ⟨"u1", "owner@acme.test", some "Alice",
     some "digest1", .tenant_owner, "active", some "T1"⟩
    "digest1" (by decide) (by decide) (by decide) (by decide)
    (by decide) (by decide) (by decide) (by decide) (by decide)

/-- A one-user account store for the null-tenant case: an active
`tenant_viewer` whose `tenantId` is null. -/
def nullTenantDb : Db :=
  ⟨[⟨"u2", "viewer@acme.test", some "Vera",
     some "digest2", .tenant_viewer, "active", none⟩],
   []⟩

/-- Counterexample to C7 as stated: an active `tenant_viewer` with a null
`tenantId` and the correct password does NOT authenticate — `authorize`
rejects with `Account is not active`, because `user.tenant?.status`
is undefined for a null tenant and thus not `'active'`. -/
theorem authorize_nullTenant_counterexample :
    authorize plainVerify nullTenantDb "viewer@acme.test" "digest2" =
      .error "Account is not active" := by
  rfl

/-- C7 amended: for every account with status active, a correct password, a
role other than `platform_admin`, and a null `tenantId`, authentication
fails with `AccountInactive`: the tenant-activity check treats a missing
tenant as not active, so a null `tenantId` does cause authentication failure
for the three tenant roles (only `platform_admin` is exempt from the tenant
check). -/
theorem authorize_nullTenant_rejected (verify : String → String → Bool)
    (db : Db) (email password : String) (u : User) (d : String)
    (he : email ≠ "") (hp : password ≠ "")
    (hfind : findUserByEmail db email = some u)
    (hd : u.passwordHash = some d) (hdne : d ≠ "")
    (hv : verify password d = true) (hst : u.status = "active")
    (hrole : u.role ≠ .platform_admin) (hten : u.tenantId = none) :
    authorize verify db email password = .error "Account is not active" := by
  have hmap : (userTenant db u).map Tenant.status ≠ some "active" := by
    simp [userTenant, hten]
  exact (authorize_order verify db email password he hp).2.2.2.2.1
    u d hfind hd hdne hv hst hrole hmap

/-- Witness for the amended C7 at a concrete input: the active null-tenant
viewer with the correct password is rejected as inactive. -/
theorem authorize_nullTenant_rejected_witness :
    authorize plainVerify nullTenantDb "viewer@acme.test" "digest2" =
      .error "Account is not active" :=
  authorize_nullTenant_rejected plainVerify nullTenantDb
    "viewer@acme.test" "digest2"
    ⟨"u2", "viewer@acme.test", some "Vera",
     some "digest2", .tenant_viewer, "active", none⟩
    "digest2" (by decide) (by decide) (by decide) (by decide) (by decide)
    (by decide) rfl (by decide) rfl

/-- The `maxAge` of the source's session options: `30 * 24 * 60 * 60`
seconds, i.e. 30 days. -/
def sessionMaxAge : Nat := 30 * 24 * 60 * 60

/-- Session token verification outcomes. -/
inductive TokenError where
  | InvalidToken
  | TokenExpired
deriving DecidableEq

/-- The claims a session token carries: `{id, role, tenantId}` plus the
issuance time in seconds. -/
structure TokenClaims where
  id : String
  role : UserRole
  tenantId : Option String
deriving DecidableEq

/-- Modelled from the spec: the token verification loop lives in the session
library, not in `src/` — the source only configures `maxAge` (`sessionMaxAge`
above). Per the spec: `read(token)` verifies the signature (abstracted here
as the Boolean `sigValid`) and checks `now < issuedAt + 30d`, failing
`TokenExpired` otherwise, with no sliding renewal. -/
def readToken (sigValid : Bool) (issuedAt now : Nat)
    (claims : TokenClaims) : Except TokenError TokenClaims :=
  if !sigValid then
    .error .InvalidToken
  else if now < issuedAt + sessionMaxAge then
    .ok claims
  else
    .error .TokenExpired

/-- C9: a token issued at `t0` verifies at every time strictly before
`t0 + 30d` and fails with `TokenExpired` at every time after `t0 + 30d`;
in particular it verifies at `t0 + 29d23h` and fails at `t0 + 30d1s`. -/
theorem readToken_expiry (t0 t : Nat) (claims : TokenClaims) :
    (t < t0 + sessionMaxAge → readToken true t0 t claims = .ok claims) ∧
    (t0 + sessionMaxAge < t →
      readToken true t0 t claims = .error .TokenExpired) ∧
    readToken true t0 (t0 + (29 * 86400 + 23 * 3600)) claims = .ok claims ∧
    readToken true t0 (t0 + (30 * 86400 + 1)) claims =
      .error .TokenExpired := by
  refine ⟨fun h => ?_, fun h => ?_, ?_, ?_⟩
  · simp [readToken, h]
  · have hnot : ¬ t < t0 + sessionMaxAge := by omega
    simp [readToken, hnot]
  · have h : t0 + (29 * 86400 + 23 * 3600) < t0 + sessionMaxAge := by
      simp [sessionMaxAge]
    simp [readToken, h]
  · have hnot : ¬ t0 + (30 * 86400 + 1) < t0 + sessionMaxAge := by
      simp [sessionMaxAge]
    simp [readToken, hnot]

/-- Witness for C9 at a concrete input: a token issued at time 0 with the
sample claims verifies at time 1000. -/
theorem readToken_expiry_witness :
    readToken true 0 1000 ⟨"u1", .tenant_owner, some "T1"⟩ =
      .ok ⟨"u1", .tenant_owner, some "T1"⟩ :=
  (readToken_expiry 0 1000 ⟨"u1", .tenant_owner, some "T1"⟩).1 (by decide)

/-- JS `s.startsWith(pre)`: `pre` is a prefix of `s`, on code points. -/
def jsStartsWith (s pre : String) : Bool :=
  pre.data.isPrefixOf s.data

/-- The `PUBLIC_ROUTES` constant of `middleware.ts`. -/
def PUBLIC_ROUTES : List String :=
  ["/", "/auth/signin", "/auth/signup", "/auth/error", "/blog",
   "/changelog", "/api/auth"]

/-- The `ADMIN_ROUTES` constant of `middleware.ts`. -/
def ADMIN_ROUTES : List String :=
  ["/admin"]

/-- Source `isPublicRoute(pathname)`: `PUBLIC_ROUTES.some(route => pathname.startsWith(route))`. -/
def isPublicRoute (pathname : String) : Bool :=
  PUBLIC_ROUTES.any fun route => jsStartsWith pathname route

/-- Source `isAdminRoute(pathname)`: `ADMIN_ROUTES.some(route => pathname.startsWith(route))`. -/
def isAdminRoute (pathname : String) : Bool :=
  ADMIN_ROUTES.any fun route => jsStartsWith pathname route

/-- The three context request headers the middleware is specified to control:
`x-user-id`, `x-tenant-id`, `x-user-role` (each absent or a string). All
other headers are forwarded untouched by every branch and are elided. -/
structure CtxHeaders where
  xUserId : Option String
  xTenantId : Option String
  xUserRole : Option String
deriving DecidableEq

/-- The serialized role written into the `x-user-role` header
(`requestHeaders.set('x-user-role', token.role)`). -/
def roleString : UserRole → String
  | .platform_admin => "platform_admin"
  | .tenant_owner => "tenant_owner"
  | .tenant_admin => "tenant_admin"
  | .tenant_viewer => "tenant_viewer"

/-- JS truthiness of a nullable string: null and `""` are falsy. -/
def jsTruthy : Option String → Bool
  | none => false
  | some s => !(s == "")

/-- The middleware's outcome on a request, with redirect targets kept
symbolic: pass the request on with the given forwarded context headers,
or redirect to the sign-in page (carrying the original path as callback),
the `/dashboard` landing page, or the `/auth/error?error=AccessDenied`
page. -/
inductive MwResponse where
  | next (forwarded : CtxHeaders)
  | redirectSignIn (callbackUrl : String)
  | redirectDashboard
  | redirectAccessDenied
deriving DecidableEq

/-- The header-mutation block of `middleware.ts`: copy the request headers,
`set('x-tenant-id', token.tenantId)` only when `token.tenantId` is truthy,
then `set('x-user-id', token.id)` and `set('x-user-role', token.role)`. -/
def injectContext (token : TokenClaims) (req : CtxHeaders) : CtxHeaders :=
  { xUserId := some token.id,
    xTenantId := if jsTruthy token.tenantId then token.tenantId
                 else req.xTenantId,
    xUserRole := some (roleString token.role) }

/-- The wrapped `middleware` function of `middleware.ts`, branch for branch:
public check, missing-token redirect, admin gate, tenant gate, context
injection. `token` is `req.nextauth.token` (null when absent/invalid). -/
def middlewareFn (token : Option TokenClaims) (pathname : String)
    (req : CtxHeaders) : MwResponse :=
  if isPublicRoute pathname then
    .next req
  else
    match token with
    | none => .redirectSignIn pathname
    | some t =>
      if isAdminRoute pathname && !(t.role == .platform_admin) then
        .redirectDashboard
      else if (jsStartsWith pathname "/dashboard"
              || jsStartsWith pathname "/tenant")
          && (!(t.role == .platform_admin) && !(jsTruthy t.tenantId)) then
        .redirectAccessDenied
      else
        .next (injectContext t req)

/-- The `authorized` callback passed to `withAuth`: `({ token }) => !!token`. -/
def authorizedCallback (token : Option TokenClaims) : Bool :=
  token.isSome

/-- The paths the next-auth `withAuth` wrapper itself never protects, to
avoid redirect loops: the auth API base path plus the configured
`pages.signIn` (`/auth/signin`) and `pages.error` (`/auth/error`) from
`src/lib/auth.ts`. -/
def nextAuthInternalPaths : List String :=
  ["/api/auth", "/auth/signin", "/auth/error"]

/-- The composed middleware as dispatched by the next-auth `withAuth`
wrapper (library behavior, per its documented contract): requests to its
internal paths pass through untouched; otherwise the session token is
resolved (`none` for an absent, malformed, or expired token) and the
`authorized` callback from `middleware.ts` decides — on `false` the wrapper
redirects to the sign-in page with the original path as callback, on `true`
it runs the wrapped `middleware` function. -/
def handleRequest (token : Option TokenClaims) (pathname : String)
    (req : CtxHeaders) : MwResponse :=
  if nextAuthInternalPaths.any (fun p => jsStartsWith pathname p) then
    .next req
  else if authorizedCallback token then
    middlewareFn token pathname req
  else
    .redirectSignIn pathname

/-- Root cause shared by the middleware findings: `'/'` is a member of
`PUBLIC_ROUTES` and the check is `startsWith`, so every pathname beginning
with `'/'` classifies as public. -/
theorem isPublicRoute_always (pathname : String)
    (h : jsStartsWith pathname "/" = true) : isPublicRoute pathname = true := by
  simp [isPublicRoute, PUBLIC_ROUTES, List.any_eq_true]
  exact Or.inl h

/-- C2 fails on the code: `/blog` matches the public prefix set, yet an
unauthenticated request to it (no or invalid session token) is redirected
to the sign-in page — the `withAuth` `authorized` callback (`!!token`) runs
before the wrapped middleware's public-route check and rejects every
token-less request outside the wrapper's own internal paths. -/
theorem publicRoute_unauthenticated_redirected :
    isPublicRoute "/blog" = true ∧
    handleRequest none "/blog" ⟨none, none, none⟩ =
      .redirectSignIn "/blog" := by
  exact ⟨by decide, by decide⟩

/-- C3 fails on the code: a protected API request that the middleware allows
(`/api/orders`, valid `tenant_owner` token) forwards all three
client-supplied context headers verbatim — `isPublicRoute` matches every
path (prefix `'/'`), so the request returns in the public branch before the
header-overwrite block runs, and spoofed `x-user-id`, `x-tenant-id`,
`x-user-role` values survive. -/
theorem spoofedHeaders_survive :
    handleRequest (some ⟨"u1", .tenant_owner, some "T1"⟩) "/api/orders"
        ⟨some "evil-user", some "evil-tenant", some "platform_admin"⟩ =
      .next ⟨some "evil-user", some "evil-tenant", some "platform_admin"⟩ := by
  decide

/-- C8 fails on the code: an authenticated `tenant_viewer` reaching the
admin prefix `/admin` is NOT redirected to `/dashboard`, and a null-tenant
`tenant_viewer` reaching the tenant-scoped prefix `/dashboard` is NOT
redirected to the access-denied page — both requests fall into the public
branch (every path starts with `'/'`), so the admin and tenant gates are
dead code and the requests pass through unmodified. -/
theorem adminAndTenantGates_dead :
    isAdminRoute "/admin" = true ∧
    handleRequest (some ⟨"u2", .tenant_viewer, some "T1"⟩) "/admin"
        ⟨none, none, none⟩ = .next ⟨none, none, none⟩ ∧
    handleRequest (some ⟨"u3", .tenant_viewer, none⟩) "/dashboard"
        ⟨none, none, none⟩ = .next ⟨none, none, none⟩ := by
  exact ⟨by decide, by decide, by decide⟩
